import Mathlib

/-!
Verification of the affordability evaluation engine of this repository.

The repository holds two Streamlit variants of the same engine:
* `src/app.py` — the "significant only" coefficient table (13 entries),
  threshold `P_THRESHOLD = 0.05`, dict-based feature vector built by
  `build_inputs`, scored by `compute_table`, combined in the `run` block.
* `src/unnamed/part_000` (its header names it `app (9).py`) — the full
  52-entry coefficient table, threshold `0.5`, feature vector built by
  `one_hot_inputs`, scored and combined by `compute_all`.

Python floats are modelled as exact numbers: the feature/coefficient
arithmetic and the ratio rule use `ℚ`, the logistic transform uses `ℝ`
(`math.exp` becomes `Real.exp`).  Python dicts with fixed key sets are
modelled as association lists (`List (String × ℚ)`, with `setKey` for
keyed assignment and `dictGet` for `.get(k, default)`) where the key set
itself matters, and as total functions `String → ℚ` (with `update` for
keyed assignment) where only the values matter.
-/

/-- Assignment `d[k] = v` on an association-list dict: every entry whose key
is `k` is replaced, all other entries are untouched (models Python dict
update of an existing key, which keeps the insertion order). -/
def setKey (d : List (String × ℚ)) (k : String) (v : ℚ) : List (String × ℚ) :=
  d.map fun kv => if kv.1 = k then (k, v) else kv

/-- Lookup `d.get(k, dflt)` on an association-list dict. -/
def dictGet (d : List (String × ℚ)) (k : String) (dflt : ℚ) : ℚ :=
  match d.find? fun kv => kv.1 == k with
  | some kv => kv.2
  | none => dflt

/-- Membership test `k in d` on an association-list dict. -/
def containsKey (d : List (String × ℚ)) (k : String) : Bool :=
  d.any fun kv => kv.1 == k

/-- The numerically stable logistic transform shared by both variants
(`logistic` in `src/app.py` lines 74-79 and in `src/unnamed/part_000`
lines 300-307): for `z >= 0` compute `1 / (1 + exp (-z))`, otherwise
`exp z / (1 + exp z)`. -/
noncomputable def logistic (z : ℝ) : ℝ :=
  if z ≥ 0 then
    let ez := Real.exp (-z)
    1 / (1 + ez)
  else
    let ez := Real.exp z
    ez / (1 + ez)

/-- The argument that `logistic` passes to `exp`: `-z` in the `z >= 0`
branch and `z` in the other branch, read off the same source lines. -/
noncomputable def logisticExpArg (z : ℝ) : ℝ :=
  if z ≥ 0 then -z else z

namespace App

/-- Coefficient table `COEF` of `src/app.py` (lines 211-225). -/
def COEF : List (String × ℚ) :=
  [("Tahap Pendidikan=Undergraduate(1)", -0.537),
   ("Pekerjaan=Pekerja Kerajaan(1)", 0.803),
   ("Pekerjaan=Pekerja Swasta(1)", 0.912),
   ("Jenis Penyewaan=Bilik(1)", 1.121),
   ("Jenis rumah sewa=Kondominium(1)", -1.007),
   ("Jenis rumah sewa=Pangsapuri(1)", -0.604),
   ("Jenis rumah sewa=Rumah 1 unit(1)", -0.711),
   ("Jenis rumah sewa=Rumah Teres(1)", 0.526),
   ("Jenis kelengkapan perabot=Berperabot separa(1)", -0.370),
   ("deposit_2_1(1)", 0.556),
   ("Berapa lama anda telah menyewa rumah=3-5 tahun(1)", 0.413),
   ("Berapa lama anda telah menyewa rumah=6+ tahun(1)", -0.584),
   ("Constant", 0.310)]

/-- Condition A threshold of `src/app.py` (line 28): pass if `p >= 0.05`. -/
noncomputable def P_THRESHOLD : ℝ := 0.05

/-- `build_inputs` of `src/app.py` (lines 344-395): start from a dict with
every `COEF` key at `0.0`, set `Constant` to `1.0`, then activate the dummy
matching each selected label through the same `if`/`elif` chains as the
source. -/
def build_inputs (edu_label job_label jenis_penyewaan_label jenis_rumah_sewa_label
    perabot_label deposit_label tempoh_label : String) : List (String × ℚ) :=
  let inp := COEF.map fun kv => (kv.1, (0 : ℚ))
  let inp := setKey inp "Constant" 1
  let inp := if edu_label = "Undergraduate" then
      setKey inp "Tahap Pendidikan=Undergraduate(1)" 1 else inp
  let inp := if job_label = "Pekerja Kerajaan" then
      setKey inp "Pekerjaan=Pekerja Kerajaan(1)" 1
    else if job_label = "Pekerja Swasta" then
      setKey inp "Pekerjaan=Pekerja Swasta(1)" 1
    else inp
  let inp := if jenis_penyewaan_label = "Bilik" then
      setKey inp "Jenis Penyewaan=Bilik(1)" 1 else inp
  let inp := if jenis_rumah_sewa_label = "Condominium" then
      setKey inp "Jenis rumah sewa=Kondominium(1)" 1
    else if jenis_rumah_sewa_label = "Pangsapuri" then
      setKey inp "Jenis rumah sewa=Pangsapuri(1)" 1
    else if jenis_rumah_sewa_label = "Rumah 1 unit" then
      setKey inp "Jenis rumah sewa=Rumah 1 unit(1)" 1
    else if jenis_rumah_sewa_label = "Rumah Teres" then
      setKey inp "Jenis rumah sewa=Rumah Teres(1)" 1
    else inp
  let inp := if perabot_label = "Perabot separa" then
      setKey inp "Jenis kelengkapan perabot=Berperabot separa(1)" 1 else inp
  let inp := if deposit_label = "2 + 1" then
      setKey inp "deposit_2_1(1)" 1 else inp
  let inp := if tempoh_label = "3 - 5 tahun" then
      setKey inp "Berapa lama anda telah menyewa rumah=3-5 tahun(1)" 1
    else if tempoh_label = "Lebih 6 tahun" then
      setKey inp "Berapa lama anda telah menyewa rumah=6+ tahun(1)" 1
    else inp
  inp

/-- Row list of `compute_table` in `src/app.py` (lines 398-403): one row per
`COEF` entry, holding the variable name, the coefficient, the input value
`inputs.get(var, 0.0)` and their product. -/
def compute_table_rows (inputs : List (String × ℚ)) : List (String × ℚ × ℚ × ℚ) :=
  COEF.map fun kv => (kv.1, kv.2, dictGet inputs kv.1 0, kv.2 * dictGet inputs kv.1 0)

/-- Linear predictor `z` of `compute_table` in `src/app.py` (line 404): the
sum of the product column of the row table. -/
def compute_table_z (inputs : List (String × ℚ)) : ℚ :=
  ((compute_table_rows inputs).map fun r => r.2.2.2).sum

/-- Probability `p` of `compute_table` in `src/app.py` (line 405). -/
noncomputable def compute_table_p (inputs : List (String × ℚ)) : ℝ :=
  logistic ((compute_table_z inputs : ℚ) : ℝ)

/-- `clamp` of `src/app.py` (lines 82-83). -/
def clamp (x lo hi : ℚ) : ℚ :=
  max lo (min hi x)

/-- The result record stored in `st.session_state` by the `run` block of
`src/app.py` (lines 1035-1046).  `ok_a`, `ok_b`, `ok_all` are the three
boolean verdicts, kept as propositions. -/
structure RunState where
  z : ℚ
  p : ℝ
  threshold : ℚ
  ratio : ℚ
  income : ℚ
  rent : ℚ
  rent_share : ℚ
  ok_a : Prop
  ok_b : Prop
  ok_all : Prop

/-- The `run` block of `src/app.py` (lines 1014-1046): encode the seven
model-relevant labels with `build_inputs`, score with `compute_table`,
evaluate condition A (`p >= P_THRESHOLD`), condition B
(`rent <= ratio * income`) and the overall verdict (`ok_a and ok_b`).
The eight remaining widget selections (`jantina`, `warganegara`, `bangsa`,
`agama`, `status_kahwin`, `bil_isi_rumah`, `bil_tanggungan`, `skim`) are
taken as arguments exactly as the script reads them, and flow only into the
spreadsheet payload, not into this result record. -/
noncomputable def run (jantina warganegara bangsa agama status_kahwin
    tahap_pendidikan pekerjaan bil_isi_rumah bil_tanggungan jenis_penyewaan
    jenis_rumah_sewa jenis_perabot deposit tempoh_menyewa skim : String)
    (income rent ratio : ℚ) : RunState :=
  let inputs := build_inputs tahap_pendidikan pekerjaan jenis_penyewaan
    jenis_rumah_sewa jenis_perabot deposit tempoh_menyewa
  let z := compute_table_z inputs
  let p := logistic ((z : ℚ) : ℝ)
  let ok_a := p ≥ P_THRESHOLD
  let threshold := ratio * income
  let ok_b := rent ≤ threshold
  let ok_all := ok_a ∧ ok_b
  let rent_share := clamp (if income > 0 then rent / income else 0) 0 1
  ⟨z, p, threshold, ratio, income, rent, rent_share, ok_a, ok_b, ok_all⟩

end App

namespace App9

/-- The fourteen categorical fields of the `src/unnamed/part_000` respondent
profile, one per `_idx` argument of `one_hot_inputs` (lines 208-225). -/
inductive Field where
  | gender
  | nationality
  | ethnicity
  | religion
  | marital
  | education
  | occupation
  | household
  | dependents
  | rental
  | furnished
  | deposit
  | years
  | smart
deriving DecidableEq

/-- A respondent profile of `src/unnamed/part_000`: the numeric age plus the
zero-based selection index of each of the fourteen categorical fields
(index 0 is the baseline option of each group). -/
structure Profile where
  age : ℤ
  gender : ℕ
  nationality : ℕ
  ethnicity : ℕ
  religion : ℕ
  marital : ℕ
  education : ℕ
  occupation : ℕ
  household : ℕ
  dependents : ℕ
  rental : ℕ
  furnished : ℕ
  deposit : ℕ
  years : ℕ
  smart : ℕ

/-- The selection index a profile holds for a given categorical field. -/
def proj : Field → Profile → ℕ
  | .gender, P => P.gender
  | .nationality, P => P.nationality
  | .ethnicity, P => P.ethnicity
  | .religion, P => P.religion
  | .marital, P => P.marital
  | .education, P => P.education
  | .occupation, P => P.occupation
  | .household, P => P.household
  | .dependents, P => P.dependents
  | .rental, P => P.rental
  | .furnished, P => P.furnished
  | .deposit, P => P.deposit
  | .years, P => P.years
  | .smart, P => P.smart

/-- Assignment `inp[k] = v` on a dict modelled as a total function
(the `.get(k, 0.0)` reads of `compute_all` make unassigned keys 0). -/
def update (f : String → ℚ) (k : String) (v : ℚ) : String → ℚ :=
  fun k2 => if k2 = k then v else f k2

/-- Coefficient table `COEF` of `src/unnamed/part_000` (lines 67-135). -/
def COEF : List (String × ℚ) :=
  [("Umur", -0.006),
   ("Jantina ketua keluarga(1)", 0.04),
   ("Warganegara(1)", -2.49),
   ("Bangsa(1)", -1.222),
   ("Bangsa(2)", -1.693),
   ("Bangsa(3)", 17.641),
   ("Bangsa(4)", 1.828),
   ("Agama(1)", -0.291),
   ("Agama(2)", -15.98),
   ("Agama(3)", 0.175),
   ("Status Perkahwinan(1)", -25.465),
   ("Status Perkahwinan(2)", 1.468),
   ("Status Perkahwinan(3)", -0.114),
   ("Status Perkahwinan(4)", 20.673),
   ("Tahap Pendidikan(1)", -0.292),
   ("Tahap Pendidikan(2)", -0.27),
   ("Tahap Pendidikan(3)", -0.371),
   ("Tahap Pendidikan(4)", -22.714),
   ("Tahap Pendidikan(5)", 20.045),
   ("Tahap Pendidikan(6)", -1.436),
   ("Tahap Pendidikan(7)", 18.556),
   ("Tahap Pendidikan(8)", 30.823),
   ("Pekerjaan(1)", -19.721),
   ("Pekerjaan(2)", -20.39),
   ("Pekerjaan(3)", -18.736),
   ("Pekerjaan(4)", -20.434),
   ("Pekerjaan(5)", -35.097),
   ("Pekerjaan(6)", 0.085),
   ("Bilangan isi rumah(1)", -0.392),
   ("Bilangan isi rumah(2)", -0.398),
   ("Bilangan isi rumah(3)", -0.012),
   ("Bilangan isi rumah(4)", 0.158),
   ("Bilangan tanggungan(1)", 0.729),
   ("Bilangan tanggungan(2)", -1.316),
   ("Bilangan tanggungan(3)", 20.145),
   ("Bilangan tanggungan(4)", 17.796),
   ("Jenis rumah sewa(1)", 0.307),
   ("Jenis rumah sewa(2)", -0.493),
   ("Jenis rumah sewa(3)", 0.579),
   ("Jenis rumah sewa(4)", -0.331),
   ("Jenis rumah sewa(5)", 18.194),
   ("Jenis kelengkapan perabot(1)", -0.46),
   ("Bayaran deposit(1)", 1.511),
   ("Bayaran deposit(2)", 0.841),
   ("Bayaran deposit(3)", 1.496),
   ("Bayaran deposit(4)", 1.975),
   ("Bayaran deposit(5)", -0.487),
   ("Bayaran deposit(6)", 18.336),
   ("Berapa lama anda telah menyewa rumah(1)", -17.564),
   ("Berapa lama anda telah menyewa rumah(2)", -18.419),
   ("Berapa lama anda telah menyewa rumah(3)", -17.135),
   ("Berapa lama anda telah menyewa rumah(4)", -18.69),
   ("Adakah anda mengetahui terdapat skim mampu sewa di Malaysia? (contoh: SMART sewa)(1)", 0.531),
   ("Constant", 38.956)]

/-- `one_hot_inputs` of `src/unnamed/part_000` (lines 208-297): the dict
starts at 0 for every key, then `Constant`, `Umur` and the dummy of each
selected non-baseline option are assigned in source order, the `for k in
range(...)` loops written out one assignment per loop step. -/
def one_hot_inputs (P : Profile) : String → ℚ :=
  let inp : String → ℚ := fun _ => 0
  let inp := update inp "Constant" 1
  let inp := update inp "Umur" (P.age : ℚ)
  let inp := update inp "Jantina ketua keluarga(1)" (if P.gender = 1 then 1 else 0)
  let inp := update inp "Warganegara(1)" (if P.nationality = 1 then 1 else 0)
  let inp := update inp "Bangsa(1)" (if P.ethnicity = 1 then 1 else 0)
  let inp := update inp "Bangsa(2)" (if P.ethnicity = 2 then 1 else 0)
  let inp := update inp "Bangsa(3)" (if P.ethnicity = 3 then 1 else 0)
  let inp := update inp "Bangsa(4)" (if P.ethnicity = 4 then 1 else 0)
  let inp := update inp "Agama(1)" (if P.religion = 1 then 1 else 0)
  let inp := update inp "Agama(2)" (if P.religion = 2 then 1 else 0)
  let inp := update inp "Agama(3)" (if P.religion = 3 then 1 else 0)
  let inp := update inp "Status Perkahwinan(1)" (if P.marital = 1 then 1 else 0)
  let inp := update inp "Status Perkahwinan(2)" (if P.marital = 2 then 1 else 0)
  let inp := update inp "Status Perkahwinan(3)" (if P.marital = 3 then 1 else 0)
  let inp := update inp "Status Perkahwinan(4)" (if P.marital = 4 then 1 else 0)
  let inp := update inp "Tahap Pendidikan(1)" (if P.education = 1 then 1 else 0)
  let inp := update inp "Tahap Pendidikan(2)" (if P.education = 2 then 1 else 0)
  let inp := update inp "Tahap Pendidikan(3)" (if P.education = 3 then 1 else 0)
  let inp := update inp "Tahap Pendidikan(4)" (if P.education = 4 then 1 else 0)
  let inp := update inp "Tahap Pendidikan(5)" (if P.education = 5 then 1 else 0)
  let inp := update inp "Tahap Pendidikan(6)" (if P.education = 6 then 1 else 0)
  let inp := update inp "Tahap Pendidikan(7)" (if P.education = 7 then 1 else 0)
  let inp := update inp "Tahap Pendidikan(8)" (if P.education = 8 then 1 else 0)
  let inp := update inp "Pekerjaan(1)" (if P.occupation = 1 then 1 else 0)
  let inp := update inp "Pekerjaan(2)" (if P.occupation = 2 then 1 else 0)
  let inp := update inp "Pekerjaan(3)" (if P.occupation = 3 then 1 else 0)
  let inp := update inp "Pekerjaan(4)" (if P.occupation = 4 then 1 else 0)
  let inp := update inp "Pekerjaan(5)" (if P.occupation = 5 then 1 else 0)
  let inp := update inp "Pekerjaan(6)" (if P.occupation = 6 then 1 else 0)
  let inp := update inp "Bilangan isi rumah(1)" (if P.household = 1 then 1 else 0)
  let inp := update inp "Bilangan isi rumah(2)" (if P.household = 2 then 1 else 0)
  let inp := update inp "Bilangan isi rumah(3)" (if P.household = 3 then 1 else 0)
  let inp := update inp "Bilangan isi rumah(4)" (if P.household = 4 then 1 else 0)
  let inp := update inp "Bilangan tanggungan(1)" (if P.dependents = 1 then 1 else 0)
  let inp := update inp "Bilangan tanggungan(2)" (if P.dependents = 2 then 1 else 0)
  let inp := update inp "Bilangan tanggungan(3)" (if P.dependents = 3 then 1 else 0)
  let inp := update inp "Bilangan tanggungan(4)" (if P.dependents = 4 then 1 else 0)
  let inp := update inp "Jenis rumah sewa(1)" (if P.rental = 1 then 1 else 0)
  let inp := update inp "Jenis rumah sewa(2)" (if P.rental = 2 then 1 else 0)
  let inp := update inp "Jenis rumah sewa(3)" (if P.rental = 3 then 1 else 0)
  let inp := update inp "Jenis rumah sewa(4)" (if P.rental = 4 then 1 else 0)
  let inp := update inp "Jenis rumah sewa(5)" (if P.rental = 5 then 1 else 0)
  let inp := update inp "Jenis kelengkapan perabot(1)" (if P.furnished = 1 then 1 else 0)
  let inp := update inp "Bayaran deposit(1)" (if P.deposit = 1 then 1 else 0)
  let inp := update inp "Bayaran deposit(2)" (if P.deposit = 2 then 1 else 0)
  let inp := update inp "Bayaran deposit(3)" (if P.deposit = 3 then 1 else 0)
  let inp := update inp "Bayaran deposit(4)" (if P.deposit = 4 then 1 else 0)
  let inp := update inp "Bayaran deposit(5)" (if P.deposit = 5 then 1 else 0)
  let inp := update inp "Bayaran deposit(6)" (if P.deposit = 6 then 1 else 0)
  let inp := update inp "Berapa lama anda telah menyewa rumah(1)" (if P.years = 1 then 1 else 0)
  let inp := update inp "Berapa lama anda telah menyewa rumah(2)" (if P.years = 2 then 1 else 0)
  let inp := update inp "Berapa lama anda telah menyewa rumah(3)" (if P.years = 3 then 1 else 0)
  let inp := update inp "Berapa lama anda telah menyewa rumah(4)" (if P.years = 4 then 1 else 0)
  let inp := update inp
    "Adakah anda mengetahui terdapat skim mampu sewa di Malaysia? (contoh: SMART sewa)(1)"
    (if P.smart = 1 then 1 else 0)
  inp

/-- Which categorical field owns each dummy feature name.  `Umur` and
`Constant` belong to no group. -/
def ownerTable : List (String × Field) :=
  [("Jantina ketua keluarga(1)", .gender),
   ("Warganegara(1)", .nationality),
   ("Bangsa(1)", .ethnicity),
   ("Bangsa(2)", .ethnicity),
   ("Bangsa(3)", .ethnicity),
   ("Bangsa(4)", .ethnicity),
   ("Agama(1)", .religion),
   ("Agama(2)", .religion),
   ("Agama(3)", .religion),
   ("Status Perkahwinan(1)", .marital),
   ("Status Perkahwinan(2)", .marital),
   ("Status Perkahwinan(3)", .marital),
   ("Status Perkahwinan(4)", .marital),
   ("Tahap Pendidikan(1)", .education),
   ("Tahap Pendidikan(2)", .education),
   ("Tahap Pendidikan(3)", .education),
   ("Tahap Pendidikan(4)", .education),
   ("Tahap Pendidikan(5)", .education),
   ("Tahap Pendidikan(6)", .education),
   ("Tahap Pendidikan(7)", .education),
   ("Tahap Pendidikan(8)", .education),
   ("Pekerjaan(1)", .occupation),
   ("Pekerjaan(2)", .occupation),
   ("Pekerjaan(3)", .occupation),
   ("Pekerjaan(4)", .occupation),
   ("Pekerjaan(5)", .occupation),
   ("Pekerjaan(6)", .occupation),
   ("Bilangan isi rumah(1)", .household),
   ("Bilangan isi rumah(2)", .household),
   ("Bilangan isi rumah(3)", .household),
   ("Bilangan isi rumah(4)", .household),
   ("Bilangan tanggungan(1)", .dependents),
   ("Bilangan tanggungan(2)", .dependents),
   ("Bilangan tanggungan(3)", .dependents),
   ("Bilangan tanggungan(4)", .dependents),
   ("Jenis rumah sewa(1)", .rental),
   ("Jenis rumah sewa(2)", .rental),
   ("Jenis rumah sewa(3)", .rental),
   ("Jenis rumah sewa(4)", .rental),
   ("Jenis rumah sewa(5)", .rental),
   ("Jenis kelengkapan perabot(1)", .furnished),
   ("Bayaran deposit(1)", .deposit),
   ("Bayaran deposit(2)", .deposit),
   ("Bayaran deposit(3)", .deposit),
   ("Bayaran deposit(4)", .deposit),
   ("Bayaran deposit(5)", .deposit),
   ("Bayaran deposit(6)", .deposit),
   ("Berapa lama anda telah menyewa rumah(1)", .years),
   ("Berapa lama anda telah menyewa rumah(2)", .years),
   ("Berapa lama anda telah menyewa rumah(3)", .years),
   ("Berapa lama anda telah menyewa rumah(4)", .years),
   ("Adakah anda mengetahui terdapat skim mampu sewa di Malaysia? (contoh: SMART sewa)(1)", .smart)]

/-- Group owner of a feature name, `none` for `Umur`, `Constant` and any
name outside the coefficient table. -/
def ownerOf (k : String) : Option Field :=
  (ownerTable.find? fun kv => kv.1 == k).map fun kv => kv.2

/-- Linear predictor loop of `compute_all` in `src/unnamed/part_000`
(lines 392-398): `z` accumulates `coef * inp.get(k, 0.0)` over the
coefficient table entries. -/
def compute_z (inp : String → ℚ) : ℚ :=
  (COEF.map fun kv => kv.2 * inp kv.1).sum

/-- The outcome record returned by `compute_all` in `src/unnamed/part_000`
(lines 400-416), restricted to its numeric trail and boolean verdicts (the
`"Afford"` display strings are determined by the booleans). -/
structure Outcome where
  z : ℚ
  p : ℝ
  threshold : ℚ
  cond_a_ok : Prop
  cond_b_ok : Prop
  overall_ok : Prop

/-- `compute_all` of `src/unnamed/part_000` (lines 373-416): one-hot encode
the profile, score it, then condition A (`p >= 0.5`), condition B
(`rent <= ratio * income`) and the overall verdict
(`cond_a_ok and cond_b_ok`). -/
noncomputable def compute_all (P : Profile) (income rent ratio : ℚ) : Outcome :=
  let inp := one_hot_inputs P
  let z := compute_z inp
  let p := logistic ((z : ℚ) : ℝ)
  let cond_a_ok := p ≥ 0.5
  let threshold := ratio * income
  let cond_b_ok := rent ≤ threshold
  let overall_ok := cond_a_ok ∧ cond_b_ok
  ⟨z, p, threshold, cond_a_ok, cond_b_ok, overall_ok⟩

end App9

/-- C1: for every evaluation the overall verdict is exactly the conjunction
of condition A and condition B (hence agrees with the logical AND on all
four boolean combinations), and in the same evaluation condition B is the
ratio-rule outcome `rent <= ratio * income` unconditionally — it is computed
and reported whether or not condition A holds.  Stated for the `run` block
of `src/app.py` and for `compute_all` of `src/unnamed/part_000`. -/
theorem overall_is_conjunction_and_b_always_computed :
    (∀ (j w b a s ed jb hh dp py rs pb de tp sk : String) (income rent ratio : ℚ),
      ((App.run j w b a s ed jb hh dp py rs pb de tp sk income rent ratio).ok_all ↔
        ((App.run j w b a s ed jb hh dp py rs pb de tp sk income rent ratio).ok_a ∧
         (App.run j w b a s ed jb hh dp py rs pb de tp sk income rent ratio).ok_b)) ∧
      ((App.run j w b a s ed jb hh dp py rs pb de tp sk income rent ratio).ok_b ↔
        rent ≤ ratio * income)) ∧
    (∀ (P : App9.Profile) (income rent ratio : ℚ),
      ((App9.compute_all P income rent ratio).overall_ok ↔
        ((App9.compute_all P income rent ratio).cond_a_ok ∧
         (App9.compute_all P income rent ratio).cond_b_ok)) ∧
      ((App9.compute_all P income rent ratio).cond_b_ok ↔ rent ≤ ratio * income)) :=
  ⟨fun _ _ _ _ _ _ _ _ _ _ _ _ _ _ _ _ _ _ => ⟨Iff.rfl, Iff.rfl⟩,
   fun _ _ _ _ => ⟨Iff.rfl, Iff.rfl⟩⟩

/-- C2: condition B of the `src/app.py` evaluation holds exactly when
`rent <= ratio * income`, with a non-strict inequality, so at the exact
boundary `rent = ratio * income` the rule reports Afford. -/
theorem cond_b_nonstrict_boundary :
    ∀ (j w b a s ed jb hh dp py rs pb de tp sk : String) (income rent ratio : ℚ),
      ((App.run j w b a s ed jb hh dp py rs pb de tp sk income rent ratio).ok_b ↔
        rent ≤ ratio * income) ∧
      (rent = ratio * income →
        (App.run j w b a s ed jb hh dp py rs pb de tp sk income rent ratio).ok_b) :=
  fun _ _ _ _ _ _ _ _ _ _ _ _ _ _ _ _ _ _ => ⟨Iff.rfl, fun h => le_of_eq h⟩

/-- Boundary witness for C2: with income 6000 and ratio 19/50 the threshold
is exactly 2280, and rent 2280 passes condition B. -/
theorem cond_b_nonstrict_boundary_witness :
    (2280 : ℚ) = (19 / 50 : ℚ) * 6000 ∧
    (App.run "Lelaki" "Malaysian" "Bumiputera" "Islam" "Single" "SPM dan ke bawah"
      "Tidak bekerja" "Kurang dari 2 orang" "Kurang dari 2 orang" "Rumah" "Flat"
      "Tiada perabot" "Tiada deposit" "Kurang 2 tahun" "Ya"
      6000 2280 (19 / 50)).ok_b :=
  ⟨by norm_num,
   (cond_b_nonstrict_boundary "Lelaki" "Malaysian" "Bumiputera" "Islam" "Single"
     "SPM dan ke bawah" "Tidak bekerja" "Kurang dari 2 orang" "Kurang dari 2 orang"
     "Rumah" "Flat" "Tiada perabot" "Tiada deposit" "Kurang 2 tahun" "Ya"
     6000 2280 (19 / 50)).2 (by norm_num)⟩

/-- C3: the logistic transform follows the branching formula of the spec —
for `z >= 0` it returns `1 / (1 + exp (-z))`, otherwise
`exp z / (1 + exp z)` — and the argument handed to `exp` (`-z` in the first
branch, `z` in the second) is never positive. -/
theorem logistic_branch_formulas :
    ∀ z : ℝ,
      logisticExpArg z ≤ 0 ∧
      (0 ≤ z → logistic z = 1 / (1 + Real.exp (-z))) ∧
      (z < 0 → logistic z = Real.exp z / (1 + Real.exp z)) := by
  intro z
  refine ⟨?_, fun h => ?_, fun h => ?_⟩
  · unfold logisticExpArg
    split_ifs with h
    · linarith
    · push_neg at h
      linarith
  · unfold logistic
    rw [if_pos h]
  · unfold logistic
    rw [if_neg (not_le.mpr h)]

/-- Witness for C3: both branch formulas evaluated, at `z = 1` and
`z = -1`. -/
theorem logistic_branch_formulas_witness :
    ((0 : ℝ) ≤ 1 ∧ logistic 1 = 1 / (1 + Real.exp (-1))) ∧
    ((-1 : ℝ) < 0 ∧ logistic (-1) = Real.exp (-1) / (1 + Real.exp (-1))) :=
  ⟨⟨by norm_num, (logistic_branch_formulas 1).2.1 (by norm_num)⟩,
   ⟨by norm_num, (logistic_branch_formulas (-1)).2.2 (by norm_num)⟩⟩

/-- C5: the logistic transform always lands in the closed interval
`[0, 1]`, and `logistic 0` is exactly `0.5`. -/
theorem logistic_range_and_half :
    (∀ z : ℝ, 0 ≤ logistic z ∧ logistic z ≤ 1) ∧ logistic 0 = 0.5 := by
  constructor
  · intro z
    unfold logistic
    split_ifs with h
    · constructor
      · positivity
      · rw [div_le_one (by positivity)]
        linarith [Real.exp_pos (-z)]
    · constructor
      · positivity
      · rw [div_le_one (by positivity)]
        linarith [Real.exp_pos z]
  · norm_num [logistic, Real.exp_zero]

/-- C6: with income 0 the `src/app.py` evaluation has threshold
`ratio * 0 = 0`, so (rent being non-negative, as the rent input widget
enforces `min_value=0.0`) condition B holds exactly when rent is 0.
The arithmetic alone produces this; `run` has no zero-income branch. -/
theorem zero_income_cond_b :
    ∀ (j w b a s ed jb hh dp py rs pb de tp sk : String) (rent ratio : ℚ),
      0 ≤ rent →
      ((App.run j w b a s ed jb hh dp py rs pb de tp sk 0 rent ratio).threshold = 0 ∧
       ((App.run j w b a s ed jb hh dp py rs pb de tp sk 0 rent ratio).ok_b ↔
         rent = 0)) := by
  intro j w b a s ed jb hh dp py rs pb de tp sk rent ratio hrent
  constructor
  · show ratio * 0 = 0
    exact mul_zero ratio
  · show rent ≤ ratio * 0 ↔ rent = 0
    rw [mul_zero]
    exact ⟨fun h => le_antisymm h hrent, fun h => h.le⟩

/-- Witness for C6, the end-to-end scenario income 0, rent 1: threshold is
0 and condition B reduces to the false proposition `1 = 0`. -/
theorem zero_income_cond_b_witness :
    (0 : ℚ) ≤ 1 ∧
    ((App.run "Lelaki" "Malaysian" "Bumiputera" "Islam" "Single" "SPM dan ke bawah"
        "Tidak bekerja" "Kurang dari 2 orang" "Kurang dari 2 orang" "Rumah" "Flat"
        "Tiada perabot" "Tiada deposit" "Kurang 2 tahun" "Ya"
        0 1 (19 / 50)).threshold = 0 ∧
     ((App.run "Lelaki" "Malaysian" "Bumiputera" "Islam" "Single" "SPM dan ke bawah"
        "Tidak bekerja" "Kurang dari 2 orang" "Kurang dari 2 orang" "Rumah" "Flat"
        "Tiada perabot" "Tiada deposit" "Kurang 2 tahun" "Ya"
        0 1 (19 / 50)).ok_b ↔ (1 : ℚ) = 0)) :=
  ⟨by norm_num,
   zero_income_cond_b "Lelaki" "Malaysian" "Bumiputera" "Islam" "Single"
     "SPM dan ke bawah" "Tidak bekerja" "Kurang dari 2 orang" "Kurang dari 2 orang"
     "Rumah" "Flat" "Tiada perabot" "Tiada deposit" "Kurang 2 tahun" "Ya"
     1 (19 / 50) (by norm_num)⟩

/-- C10: two `src/app.py` runs that differ only in the Jantina,
Warganegara, Bangsa, Agama, Status Perkahwinan, Bilangan Isi Rumah,
Bilangan Tanggungan and Skim selections (same seven encoder labels and
same income, rent, ratio) produce the same result record: identical `z`,
`p`, threshold, condition A, condition B and overall verdict. -/
theorem eight_profile_fields_noninterference :
    ∀ (j w b a s hh dp sk j2 w2 b2 a2 s2 hh2 dp2 sk2 ed jb py rs pb de tp : String)
      (income rent ratio : ℚ),
      App.run j w b a s ed jb hh dp py rs pb de tp sk income rent ratio =
        App.run j2 w2 b2 a2 s2 ed jb hh2 dp2 py rs pb de tp sk2 income rent ratio := by
  intros
  rfl

/-- Scorer formula exactly as §4.2 of the spec words it: the sum, over
every name in the coefficient table, of the coefficient times the feature
value, a missing feature entry counting as 0. -/
def specScorerZ (coefficients : List (String × ℚ)) (features : String → Option ℚ) : ℚ :=
  (coefficients.map fun kv => kv.2 * ((features kv.1).getD 0)).sum

/-- View of an association-list feature dict as a partial map from names
to values. -/
def featuresOf (inputs : List (String × ℚ)) : String → Option ℚ :=
  fun k => (inputs.find? fun kv => kv.1 == k).map fun kv => kv.2

theorem dictGet_eq_featuresOf (inputs : List (String × ℚ)) (k : String) :
    dictGet inputs k 0 = ((featuresOf inputs) k).getD 0 := by
  unfold dictGet featuresOf
  cases inputs.find? fun kv => kv.1 == k <;> simp

theorem dictGet_cons_ne (hd : String × ℚ) (t : List (String × ℚ)) (k : String)
    (d : ℚ) (h : hd.1 ≠ k) : dictGet (hd :: t) k d = dictGet t k d := by
  have hb : (hd.1 == k) = false := beq_eq_false_iff_ne.mpr h
  unfold dictGet
  simp [List.find?, hb]

/-- C4: the `src/app.py` scorer refines the spec formula — its `z` is the
sum over the coefficient table of coefficient times looked-up feature;
a key absent from the coefficient table never contributes (the iteration
runs over the coefficient keys, not the feature dict keys); and a
coefficient name missing from the feature dict reads as 0 instead of
failing. -/
theorem compute_table_scorer_spec :
    (∀ inputs : List (String × ℚ),
      App.compute_table_z inputs = specScorerZ App.COEF (featuresOf inputs)) ∧
    (∀ (inputs : List (String × ℚ)) (k : String) (v : ℚ),
      containsKey App.COEF k = false →
      App.compute_table_z ((k, v) :: inputs) = App.compute_table_z inputs) ∧
    (∀ (inputs : List (String × ℚ)) (k : String),
      containsKey inputs k = false → dictGet inputs k 0 = 0) := by
  refine ⟨?_, ?_, ?_⟩
  · intro inputs
    unfold App.compute_table_z App.compute_table_rows specScorerZ
    rw [List.map_map]
    congr 1
    apply List.map_congr_left
    intro kv _
    simp [Function.comp, dictGet_eq_featuresOf]
  · intro inputs k v h
    unfold App.compute_table_z App.compute_table_rows
    rw [List.map_map, List.map_map]
    apply congrArg List.sum
    apply List.map_congr_left
    intro kv hkv
    have hne : k ≠ kv.1 := by
      intro he
      rw [containsKey, List.any_eq_false] at h
      exact absurd (by simpa using congrArg (fun t => t == k) he.symm) (by simpa using h kv hkv)
    simp only [Function.comp]
    rw [dictGet_cons_ne (k, v) inputs kv.1 0 hne]
  · intro inputs k h
    have hfind : (inputs.find? fun kv => kv.1 == k) = none := by
      rw [List.find?_eq_none]
      intro kv hkv
      rw [containsKey, List.any_eq_false] at h
      simpa using h kv hkv
    simp [dictGet, hfind]

/-- Witness for C4: the key `Foo` is outside the coefficient table, so
prepending it to a feature dict leaves `z` unchanged, and a dict without a
`Foo` entry reads 0 for it. -/
theorem compute_table_scorer_spec_witness :
    (containsKey App.COEF "Foo" = false ∧
     App.compute_table_z (("Foo", 5) :: [("Constant", 1)]) =
       App.compute_table_z [("Constant", 1)]) ∧
    (containsKey [("Constant", (1 : ℚ))] "Foo" = false ∧
     dictGet [("Constant", (1 : ℚ))] "Foo" 0 = 0) :=
  ⟨⟨by decide, compute_table_scorer_spec.2.1 [("Constant", 1)] "Foo" 5 (by decide)⟩,
   ⟨by decide, compute_table_scorer_spec.2.2 [("Constant", (1 : ℚ))] "Foo" (by decide)⟩⟩

theorem map_fst_setKey (d : List (String × ℚ)) (k : String) (v : ℚ) :
    (setKey d k v).map Prod.fst = d.map Prod.fst := by
  unfold setKey
  rw [List.map_map]
  apply List.map_congr_left
  intro kv _
  by_cases h : kv.1 = k <;> simp [h]

theorem map_fst_ite (c : Prop) [Decidable c] (a b : List (String × ℚ)) :
    (if c then a else b).map Prod.fst = if c then a.map Prod.fst else b.map Prod.fst := by
  split <;> rfl

/-- C8: whatever the seven selected labels, the feature dict built by
`build_inputs` in `src/app.py` carries exactly the coefficient table's
keys, in the same order: every coefficient name is present (left at 0 when
its dummy is not activated) and no other key is ever produced. -/
theorem build_inputs_key_set :
    ∀ e jb py rs pb de tp : String,
      (App.build_inputs e jb py rs pb de tp).map Prod.fst = App.COEF.map Prod.fst := by
  intro e jb py rs pb de tp
  simp only [App.build_inputs, map_fst_ite, map_fst_setKey, ite_self, List.map_map]
  rfl

namespace App9

/-- The 54 keyed assignments that `one_hot_inputs` performs, in source
order, paired with the value each one writes. -/
def assignments (P : Profile) : List (String × ℚ) :=
  [("Constant", 1),
   ("Umur", (P.age : ℚ)),
   ("Jantina ketua keluarga(1)", if P.gender = 1 then 1 else 0),
   ("Warganegara(1)", if P.nationality = 1 then 1 else 0),
   ("Bangsa(1)", if P.ethnicity = 1 then 1 else 0),
   ("Bangsa(2)", if P.ethnicity = 2 then 1 else 0),
   ("Bangsa(3)", if P.ethnicity = 3 then 1 else 0),
   ("Bangsa(4)", if P.ethnicity = 4 then 1 else 0),
   ("Agama(1)", if P.religion = 1 then 1 else 0),
   ("Agama(2)", if P.religion = 2 then 1 else 0),
   ("Agama(3)", if P.religion = 3 then 1 else 0),
   ("Status Perkahwinan(1)", if P.marital = 1 then 1 else 0),
   ("Status Perkahwinan(2)", if P.marital = 2 then 1 else 0),
   ("Status Perkahwinan(3)", if P.marital = 3 then 1 else 0),
   ("Status Perkahwinan(4)", if P.marital = 4 then 1 else 0),
   ("Tahap Pendidikan(1)", if P.education = 1 then 1 else 0),
   ("Tahap Pendidikan(2)", if P.education = 2 then 1 else 0),
   ("Tahap Pendidikan(3)", if P.education = 3 then 1 else 0),
   ("Tahap Pendidikan(4)", if P.education = 4 then 1 else 0),
   ("Tahap Pendidikan(5)", if P.education = 5 then 1 else 0),
   ("Tahap Pendidikan(6)", if P.education = 6 then 1 else 0),
   ("Tahap Pendidikan(7)", if P.education = 7 then 1 else 0),
   ("Tahap Pendidikan(8)", if P.education = 8 then 1 else 0),
   ("Pekerjaan(1)", if P.occupation = 1 then 1 else 0),
   ("Pekerjaan(2)", if P.occupation = 2 then 1 else 0),
   ("Pekerjaan(3)", if P.occupation = 3 then 1 else 0),
   ("Pekerjaan(4)", if P.occupation = 4 then 1 else 0),
   ("Pekerjaan(5)", if P.occupation = 5 then 1 else 0),
   ("Pekerjaan(6)", if P.occupation = 6 then 1 else 0),
   ("Bilangan isi rumah(1)", if P.household = 1 then 1 else 0),
   ("Bilangan isi rumah(2)", if P.household = 2 then 1 else 0),
   ("Bilangan isi rumah(3)", if P.household = 3 then 1 else 0),
   ("Bilangan isi rumah(4)", if P.household = 4 then 1 else 0),
   ("Bilangan tanggungan(1)", if P.dependents = 1 then 1 else 0),
   ("Bilangan tanggungan(2)", if P.dependents = 2 then 1 else 0),
   ("Bilangan tanggungan(3)", if P.dependents = 3 then 1 else 0),
   ("Bilangan tanggungan(4)", if P.dependents = 4 then 1 else 0),
   ("Jenis rumah sewa(1)", if P.rental = 1 then 1 else 0),
   ("Jenis rumah sewa(2)", if P.rental = 2 then 1 else 0),
   ("Jenis rumah sewa(3)", if P.rental = 3 then 1 else 0),
   ("Jenis rumah sewa(4)", if P.rental = 4 then 1 else 0),
   ("Jenis rumah sewa(5)", if P.rental = 5 then 1 else 0),
   ("Jenis kelengkapan perabot(1)", if P.furnished = 1 then 1 else 0),
   ("Bayaran deposit(1)", if P.deposit = 1 then 1 else 0),
   ("Bayaran deposit(2)", if P.deposit = 2 then 1 else 0),
   ("Bayaran deposit(3)", if P.deposit = 3 then 1 else 0),
   ("Bayaran deposit(4)", if P.deposit = 4 then 1 else 0),
   ("Bayaran deposit(5)", if P.deposit = 5 then 1 else 0),
   ("Bayaran deposit(6)", if P.deposit = 6 then 1 else 0),
   ("Berapa lama anda telah menyewa rumah(1)", if P.years = 1 then 1 else 0),
   ("Berapa lama anda telah menyewa rumah(2)", if P.years = 2 then 1 else 0),
   ("Berapa lama anda telah menyewa rumah(3)", if P.years = 3 then 1 else 0),
   ("Berapa lama anda telah menyewa rumah(4)", if P.years = 4 then 1 else 0),
   ("Adakah anda mengetahui terdapat skim mampu sewa di Malaysia? (contoh: SMART sewa)(1)", if P.smart = 1 then 1 else 0)]

/-- Replay a list of keyed assignments on a starting dict. -/
def applyAssignments (l : List (String × ℚ)) (f : String → ℚ) : String → ℚ :=
  l.foldl (fun g kv => update g kv.1 kv.2) f

/-- The assignment chain of `one_hot_inputs` is the replay of its
assignment list over the all-zero dict. -/
theorem one_hot_inputs_eq_fold (P : Profile) :
    one_hot_inputs P = applyAssignments (assignments P) fun _ => 0 := rfl

end App9

/-- Replaying two assignment lists that agree on keys, agree on the values
written at key `k`, and start from dicts that agree at `k`, yields dicts
that agree at `k`. -/
theorem applyAssignments_congr {k : String} :
    ∀ {l1 l2 : List (String × ℚ)},
      List.Forall₂ (fun p q => p.1 = q.1 ∧ (p.1 = k → p.2 = q.2)) l1 l2 →
      ∀ {f1 f2 : String → ℚ}, f1 k = f2 k →
        App9.applyAssignments l1 f1 k = App9.applyAssignments l2 f2 k := by
  intro l1 l2 h
  induction h with
  | nil =>
      intro f1 f2 hf
      exact hf
  | @cons p q t1 t2 hpq htl ih =>
      intro f1 f2 hf
      show App9.applyAssignments t1 (App9.update f1 p.1 p.2) k =
        App9.applyAssignments t2 (App9.update f2 q.1 q.2) k
      apply ih
      obtain ⟨hkey, hval⟩ := hpq
      show (if k = p.1 then p.2 else f1 k) = (if k = q.1 then q.2 else f2 k)
      by_cases hkk : k = p.1
      · rw [if_pos hkk, if_pos (hkey ▸ hkk)]
        exact hval hkk.symm
      · rw [if_neg hkk, if_neg fun hc => hkk (hc.trans hkey.symm)]
        exact hf

/-- C9: in the `src/unnamed/part_000` encoder, changing exactly one
categorical field (from its baseline option 0 to a non-baseline option)
can change the encoded feature dict only at the dummy names owned by that
field's group: every feature name owned by another group, the `Constant`
feature and the `Umur` age feature keep their values. -/
theorem one_hot_encoding_independence :
    ∀ (P1 P2 : App9.Profile) (f : App9.Field),
      P1.age = P2.age →
      (∀ g : App9.Field, g ≠ f → App9.proj g P1 = App9.proj g P2) →
      App9.proj f P1 = 0 →
      App9.proj f P2 ≠ 0 →
      ∀ k : String, App9.ownerOf k ≠ some f →
        App9.one_hot_inputs P1 k = App9.one_hot_inputs P2 k := by
  intro P1 P2 f hage hagree hbase hchange k hk
  rw [App9.one_hot_inputs_eq_fold, App9.one_hot_inputs_eq_fold]
  refine applyAssignments_congr ?_ rfl
  simp only [App9.assignments]
  refine List.Forall₂.cons ⟨rfl, ?_⟩ ?_
  · exact fun _ => rfl
  refine List.Forall₂.cons ⟨rfl, ?_⟩ ?_
  · intro hkK
    show ((P1.age : ℚ)) = ((P2.age : ℚ))
    rw [hage]
  refine List.Forall₂.cons ⟨rfl, ?_⟩ ?_
  · intro hkK
    replace hkK : "Jantina ketua keluarga(1)" = k := hkK
    have how : App9.ownerOf k = some App9.Field.gender := by
      rw [← hkK]
      decide
    have hov : P1.gender = P2.gender := hagree App9.Field.gender fun hf => hk (hf ▸ how)
    show (if P1.gender = 1 then (1 : ℚ) else 0) = (if P2.gender = 1 then (1 : ℚ) else 0)
    rw [hov]
  refine List.Forall₂.cons ⟨rfl, ?_⟩ ?_
  · intro hkK
    replace hkK : "Warganegara(1)" = k := hkK
    have how : App9.ownerOf k = some App9.Field.nationality := by
      rw [← hkK]
      decide
    have hov : P1.nationality = P2.nationality := hagree App9.Field.nationality fun hf => hk (hf ▸ how)
    show (if P1.nationality = 1 then (1 : ℚ) else 0) = (if P2.nationality = 1 then (1 : ℚ) else 0)
    rw [hov]
  refine List.Forall₂.cons ⟨rfl, ?_⟩ ?_
  · intro hkK
    replace hkK : "Bangsa(1)" = k := hkK
    have how : App9.ownerOf k = some App9.Field.ethnicity := by
      rw [← hkK]
      decide
    have hov : P1.ethnicity = P2.ethnicity := hagree App9.Field.ethnicity fun hf => hk (hf ▸ how)
    show (if P1.ethnicity = 1 then (1 : ℚ) else 0) = (if P2.ethnicity = 1 then (1 : ℚ) else 0)
    rw [hov]
  refine List.Forall₂.cons ⟨rfl, ?_⟩ ?_
  · intro hkK
    replace hkK : "Bangsa(2)" = k := hkK
    have how : App9.ownerOf k = some App9.Field.ethnicity := by
      rw [← hkK]
      decide
    have hov : P1.ethnicity = P2.ethnicity := hagree App9.Field.ethnicity fun hf => hk (hf ▸ how)
    show (if P1.ethnicity = 2 then (1 : ℚ) else 0) = (if P2.ethnicity = 2 then (1 : ℚ) else 0)
    rw [hov]
  refine List.Forall₂.cons ⟨rfl, ?_⟩ ?_
  · intro hkK
    replace hkK : "Bangsa(3)" = k := hkK
    have how : App9.ownerOf k = some App9.Field.ethnicity := by
      rw [← hkK]
      decide
    have hov : P1.ethnicity = P2.ethnicity := hagree App9.Field.ethnicity fun hf => hk (hf ▸ how)
    show (if P1.ethnicity = 3 then (1 : ℚ) else 0) = (if P2.ethnicity = 3 then (1 : ℚ) else 0)
    rw [hov]
  refine List.Forall₂.cons ⟨rfl, ?_⟩ ?_
  · intro hkK
    replace hkK : "Bangsa(4)" = k := hkK
    have how : App9.ownerOf k = some App9.Field.ethnicity := by
      rw [← hkK]
      decide
    have hov : P1.ethnicity = P2.ethnicity := hagree App9.Field.ethnicity fun hf => hk (hf ▸ how)
    show (if P1.ethnicity = 4 then (1 : ℚ) else 0) = (if P2.ethnicity = 4 then (1 : ℚ) else 0)
    rw [hov]
  refine List.Forall₂.cons ⟨rfl, ?_⟩ ?_
  · intro hkK
    replace hkK : "Agama(1)" = k := hkK
    have how : App9.ownerOf k = some App9.Field.religion := by
      rw [← hkK]
      decide
    have hov : P1.religion = P2.religion := hagree App9.Field.religion fun hf => hk (hf ▸ how)
    show (if P1.religion = 1 then (1 : ℚ) else 0) = (if P2.religion = 1 then (1 : ℚ) else 0)
    rw [hov]
  refine List.Forall₂.cons ⟨rfl, ?_⟩ ?_
  · intro hkK
    replace hkK : "Agama(2)" = k := hkK
    have how : App9.ownerOf k = some App9.Field.religion := by
      rw [← hkK]
      decide
    have hov : P1.religion = P2.religion := hagree App9.Field.religion fun hf => hk (hf ▸ how)
    show (if P1.religion = 2 then (1 : ℚ) else 0) = (if P2.religion = 2 then (1 : ℚ) else 0)
    rw [hov]
  refine List.Forall₂.cons ⟨rfl, ?_⟩ ?_
  · intro hkK
    replace hkK : "Agama(3)" = k := hkK
    have how : App9.ownerOf k = some App9.Field.religion := by
      rw [← hkK]
      decide
    have hov : P1.religion = P2.religion := hagree App9.Field.religion fun hf => hk (hf ▸ how)
    show (if P1.religion = 3 then (1 : ℚ) else 0) = (if P2.religion = 3 then (1 : ℚ) else 0)
    rw [hov]
  refine List.Forall₂.cons ⟨rfl, ?_⟩ ?_
  · intro hkK
    replace hkK : "Status Perkahwinan(1)" = k := hkK
    have how : App9.ownerOf k = some App9.Field.marital := by
      rw [← hkK]
      decide
    have hov : P1.marital = P2.marital := hagree App9.Field.marital fun hf => hk (hf ▸ how)
    show (if P1.marital = 1 then (1 : ℚ) else 0) = (if P2.marital = 1 then (1 : ℚ) else 0)
    rw [hov]
  refine List.Forall₂.cons ⟨rfl, ?_⟩ ?_
  · intro hkK
    replace hkK : "Status Perkahwinan(2)" = k := hkK
    have how : App9.ownerOf k = some App9.Field.marital := by
      rw [← hkK]
      decide
    have hov : P1.marital = P2.marital := hagree App9.Field.marital fun hf => hk (hf ▸ how)
    show (if P1.marital = 2 then (1 : ℚ) else 0) = (if P2.marital = 2 then (1 : ℚ) else 0)
    rw [hov]
  refine List.Forall₂.cons ⟨rfl, ?_⟩ ?_
  · intro hkK
    replace hkK : "Status Perkahwinan(3)" = k := hkK
    have how : App9.ownerOf k = some App9.Field.marital := by
      rw [← hkK]
      decide
    have hov : P1.marital = P2.marital := hagree App9.Field.marital fun hf => hk (hf ▸ how)
    show (if P1.marital = 3 then (1 : ℚ) else 0) = (if P2.marital = 3 then (1 : ℚ) else 0)
    rw [hov]
  refine List.Forall₂.cons ⟨rfl, ?_⟩ ?_
  · intro hkK
    replace hkK : "Status Perkahwinan(4)" = k := hkK
    have how : App9.ownerOf k = some App9.Field.marital := by
      rw [← hkK]
      decide
    have hov : P1.marital = P2.marital := hagree App9.Field.marital fun hf => hk (hf ▸ how)
    show (if P1.marital = 4 then (1 : ℚ) else 0) = (if P2.marital = 4 then (1 : ℚ) else 0)
    rw [hov]
  refine List.Forall₂.cons ⟨rfl, ?_⟩ ?_
  · intro hkK
    replace hkK : "Tahap Pendidikan(1)" = k := hkK
    have how : App9.ownerOf k = some App9.Field.education := by
      rw [← hkK]
      decide
    have hov : P1.education = P2.education := hagree App9.Field.education fun hf => hk (hf ▸ how)
    show (if P1.education = 1 then (1 : ℚ) else 0) = (if P2.education = 1 then (1 : ℚ) else 0)
    rw [hov]
  refine List.Forall₂.cons ⟨rfl, ?_⟩ ?_
  · intro hkK
    replace hkK : "Tahap Pendidikan(2)" = k := hkK
    have how : App9.ownerOf k = some App9.Field.education := by
      rw [← hkK]
      decide
    have hov : P1.education = P2.education := hagree App9.Field.education fun hf => hk (hf ▸ how)
    show (if P1.education = 2 then (1 : ℚ) else 0) = (if P2.education = 2 then (1 : ℚ) else 0)
    rw [hov]
  refine List.Forall₂.cons ⟨rfl, ?_⟩ ?_
  · intro hkK
    replace hkK : "Tahap Pendidikan(3)" = k := hkK
    have how : App9.ownerOf k = some App9.Field.education := by
      rw [← hkK]
      decide
    have hov : P1.education = P2.education := hagree App9.Field.education fun hf => hk (hf ▸ how)
    show (if P1.education = 3 then (1 : ℚ) else 0) = (if P2.education = 3 then (1 : ℚ) else 0)
    rw [hov]
  refine List.Forall₂.cons ⟨rfl, ?_⟩ ?_
  · intro hkK
    replace hkK : "Tahap Pendidikan(4)" = k := hkK
    have how : App9.ownerOf k = some App9.Field.education := by
      rw [← hkK]
      decide
    have hov : P1.education = P2.education := hagree App9.Field.education fun hf => hk (hf ▸ how)
    show (if P1.education = 4 then (1 : ℚ) else 0) = (if P2.education = 4 then (1 : ℚ) else 0)
    rw [hov]
  refine List.Forall₂.cons ⟨rfl, ?_⟩ ?_
  · intro hkK
    replace hkK : "Tahap Pendidikan(5)" = k := hkK
    have how : App9.ownerOf k = some App9.Field.education := by
      rw [← hkK]
      decide
    have hov : P1.education = P2.education := hagree App9.Field.education fun hf => hk (hf ▸ how)
    show (if P1.education = 5 then (1 : ℚ) else 0) = (if P2.education = 5 then (1 : ℚ) else 0)
    rw [hov]
  refine List.Forall₂.cons ⟨rfl, ?_⟩ ?_
  · intro hkK
    replace hkK : "Tahap Pendidikan(6)" = k := hkK
    have how : App9.ownerOf k = some App9.Field.education := by
      rw [← hkK]
      decide
    have hov : P1.education = P2.education := hagree App9.Field.education fun hf => hk (hf ▸ how)
    show (if P1.education = 6 then (1 : ℚ) else 0) = (if P2.education = 6 then (1 : ℚ) else 0)
    rw [hov]
  refine List.Forall₂.cons ⟨rfl, ?_⟩ ?_
  · intro hkK
    replace hkK : "Tahap Pendidikan(7)" = k := hkK
    have how : App9.ownerOf k = some App9.Field.education := by
      rw [← hkK]
      decide
    have hov : P1.education = P2.education := hagree App9.Field.education fun hf => hk (hf ▸ how)
    show (if P1.education = 7 then (1 : ℚ) else 0) = (if P2.education = 7 then (1 : ℚ) else 0)
    rw [hov]
  refine List.Forall₂.cons ⟨rfl, ?_⟩ ?_
  · intro hkK
    replace hkK : "Tahap Pendidikan(8)" = k := hkK
    have how : App9.ownerOf k = some App9.Field.education := by
      rw [← hkK]
      decide
    have hov : P1.education = P2.education := hagree App9.Field.education fun hf => hk (hf ▸ how)
    show (if P1.education = 8 then (1 : ℚ) else 0) = (if P2.education = 8 then (1 : ℚ) else 0)
    rw [hov]
  refine List.Forall₂.cons ⟨rfl, ?_⟩ ?_
  · intro hkK
    replace hkK : "Pekerjaan(1)" = k := hkK
    have how : App9.ownerOf k = some App9.Field.occupation := by
      rw [← hkK]
      decide
    have hov : P1.occupation = P2.occupation := hagree App9.Field.occupation fun hf => hk (hf ▸ how)
    show (if P1.occupation = 1 then (1 : ℚ) else 0) = (if P2.occupation = 1 then (1 : ℚ) else 0)
    rw [hov]
  refine List.Forall₂.cons ⟨rfl, ?_⟩ ?_
  · intro hkK
    replace hkK : "Pekerjaan(2)" = k := hkK
    have how : App9.ownerOf k = some App9.Field.occupation := by
      rw [← hkK]
      decide
    have hov : P1.occupation = P2.occupation := hagree App9.Field.occupation fun hf => hk (hf ▸ how)
    show (if P1.occupation = 2 then (1 : ℚ) else 0) = (if P2.occupation = 2 then (1 : ℚ) else 0)
    rw [hov]
  refine List.Forall₂.cons ⟨rfl, ?_⟩ ?_
  · intro hkK
    replace hkK : "Pekerjaan(3)" = k := hkK
    have how : App9.ownerOf k = some App9.Field.occupation := by
      rw [← hkK]
      decide
    have hov : P1.occupation = P2.occupation := hagree App9.Field.occupation fun hf => hk (hf ▸ how)
    show (if P1.occupation = 3 then (1 : ℚ) else 0) = (if P2.occupation = 3 then (1 : ℚ) else 0)
    rw [hov]
  refine List.Forall₂.cons ⟨rfl, ?_⟩ ?_
  · intro hkK
    replace hkK : "Pekerjaan(4)" = k := hkK
    have how : App9.ownerOf k = some App9.Field.occupation := by
      rw [← hkK]
      decide
    have hov : P1.occupation = P2.occupation := hagree App9.Field.occupation fun hf => hk (hf ▸ how)
    show (if P1.occupation = 4 then (1 : ℚ) else 0) = (if P2.occupation = 4 then (1 : ℚ) else 0)
    rw [hov]
  refine List.Forall₂.cons ⟨rfl, ?_⟩ ?_
  · intro hkK
    replace hkK : "Pekerjaan(5)" = k := hkK
    have how : App9.ownerOf k = some App9.Field.occupation := by
      rw [← hkK]
      decide
    have hov : P1.occupation = P2.occupation := hagree App9.Field.occupation fun hf => hk (hf ▸ how)
    show (if P1.occupation = 5 then (1 : ℚ) else 0) = (if P2.occupation = 5 then (1 : ℚ) else 0)
    rw [hov]
  refine List.Forall₂.cons ⟨rfl, ?_⟩ ?_
  · intro hkK
    replace hkK : "Pekerjaan(6)" = k := hkK
    have how : App9.ownerOf k = some App9.Field.occupation := by
      rw [← hkK]
      decide
    have hov : P1.occupation = P2.occupation := hagree App9.Field.occupation fun hf => hk (hf ▸ how)
    show (if P1.occupation = 6 then (1 : ℚ) else 0) = (if P2.occupation = 6 then (1 : ℚ) else 0)
    rw [hov]
  refine List.Forall₂.cons ⟨rfl, ?_⟩ ?_
  · intro hkK
    replace hkK : "Bilangan isi rumah(1)" = k := hkK
    have how : App9.ownerOf k = some App9.Field.household := by
      rw [← hkK]
      decide
    have hov : P1.household = P2.household := hagree App9.Field.household fun hf => hk (hf ▸ how)
    show (if P1.household = 1 then (1 : ℚ) else 0) = (if P2.household = 1 then (1 : ℚ) else 0)
    rw [hov]
  refine List.Forall₂.cons ⟨rfl, ?_⟩ ?_
  · intro hkK
    replace hkK : "Bilangan isi rumah(2)" = k := hkK
    have how : App9.ownerOf k = some App9.Field.household := by
      rw [← hkK]
      decide
    have hov : P1.household = P2.household := hagree App9.Field.household fun hf => hk (hf ▸ how)
    show (if P1.household = 2 then (1 : ℚ) else 0) = (if P2.household = 2 then (1 : ℚ) else 0)
    rw [hov]
  refine List.Forall₂.cons ⟨rfl, ?_⟩ ?_
  · intro hkK
    replace hkK : "Bilangan isi rumah(3)" = k := hkK
    have how : App9.ownerOf k = some App9.Field.household := by
      rw [← hkK]
      decide
    have hov : P1.household = P2.household := hagree App9.Field.household fun hf => hk (hf ▸ how)
    show (if P1.household = 3 then (1 : ℚ) else 0) = (if P2.household = 3 then (1 : ℚ) else 0)
    rw [hov]
  refine List.Forall₂.cons ⟨rfl, ?_⟩ ?_
  · intro hkK
    replace hkK : "Bilangan isi rumah(4)" = k := hkK
    have how : App9.ownerOf k = some App9.Field.household := by
      rw [← hkK]
      decide
    have hov : P1.household = P2.household := hagree App9.Field.household fun hf => hk (hf ▸ how)
    show (if P1.household = 4 then (1 : ℚ) else 0) = (if P2.household = 4 then (1 : ℚ) else 0)
    rw [hov]
  refine List.Forall₂.cons ⟨rfl, ?_⟩ ?_
  · intro hkK
    replace hkK : "Bilangan tanggungan(1)" = k := hkK
    have how : App9.ownerOf k = some App9.Field.dependents := by
      rw [← hkK]
      decide
    have hov : P1.dependents = P2.dependents := hagree App9.Field.dependents fun hf => hk (hf ▸ how)
    show (if P1.dependents = 1 then (1 : ℚ) else 0) = (if P2.dependents = 1 then (1 : ℚ) else 0)
    rw [hov]
  refine List.Forall₂.cons ⟨rfl, ?_⟩ ?_
  · intro hkK
    replace hkK : "Bilangan tanggungan(2)" = k := hkK
    have how : App9.ownerOf k = some App9.Field.dependents := by
      rw [← hkK]
      decide
    have hov : P1.dependents = P2.dependents := hagree App9.Field.dependents fun hf => hk (hf ▸ how)
    show (if P1.dependents = 2 then (1 : ℚ) else 0) = (if P2.dependents = 2 then (1 : ℚ) else 0)
    rw [hov]
  refine List.Forall₂.cons ⟨rfl, ?_⟩ ?_
  · intro hkK
    replace hkK : "Bilangan tanggungan(3)" = k := hkK
    have how : App9.ownerOf k = some App9.Field.dependents := by
      rw [← hkK]
      decide
    have hov : P1.dependents = P2.dependents := hagree App9.Field.dependents fun hf => hk (hf ▸ how)
    show (if P1.dependents = 3 then (1 : ℚ) else 0) = (if P2.dependents = 3 then (1 : ℚ) else 0)
    rw [hov]
  refine List.Forall₂.cons ⟨rfl, ?_⟩ ?_
  · intro hkK
    replace hkK : "Bilangan tanggungan(4)" = k := hkK
    have how : App9.ownerOf k = some App9.Field.dependents := by
      rw [← hkK]
      decide
    have hov : P1.dependents = P2.dependents := hagree App9.Field.dependents fun hf => hk (hf ▸ how)
    show (if P1.dependents = 4 then (1 : ℚ) else 0) = (if P2.dependents = 4 then (1 : ℚ) else 0)
    rw [hov]
  refine List.Forall₂.cons ⟨rfl, ?_⟩ ?_
  · intro hkK
    replace hkK : "Jenis rumah sewa(1)" = k := hkK
    have how : App9.ownerOf k = some App9.Field.rental := by
      rw [← hkK]
      decide
    have hov : P1.rental = P2.rental := hagree App9.Field.rental fun hf => hk (hf ▸ how)
    show (if P1.rental = 1 then (1 : ℚ) else 0) = (if P2.rental = 1 then (1 : ℚ) else 0)
    rw [hov]
  refine List.Forall₂.cons ⟨rfl, ?_⟩ ?_
  · intro hkK
    replace hkK : "Jenis rumah sewa(2)" = k := hkK
    have how : App9.ownerOf k = some App9.Field.rental := by
      rw [← hkK]
      decide
    have hov : P1.rental = P2.rental := hagree App9.Field.rental fun hf => hk (hf ▸ how)
    show (if P1.rental = 2 then (1 : ℚ) else 0) = (if P2.rental = 2 then (1 : ℚ) else 0)
    rw [hov]
  refine List.Forall₂.cons ⟨rfl, ?_⟩ ?_
  · intro hkK
    replace hkK : "Jenis rumah sewa(3)" = k := hkK
    have how : App9.ownerOf k = some App9.Field.rental := by
      rw [← hkK]
      decide
    have hov : P1.rental = P2.rental := hagree App9.Field.rental fun hf => hk (hf ▸ how)
    show (if P1.rental = 3 then (1 : ℚ) else 0) = (if P2.rental = 3 then (1 : ℚ) else 0)
    rw [hov]
  refine List.Forall₂.cons ⟨rfl, ?_⟩ ?_
  · intro hkK
    replace hkK : "Jenis rumah sewa(4)" = k := hkK
    have how : App9.ownerOf k = some App9.Field.rental := by
      rw [← hkK]
      decide
    have hov : P1.rental = P2.rental := hagree App9.Field.rental fun hf => hk (hf ▸ how)
    show (if P1.rental = 4 then (1 : ℚ) else 0) = (if P2.rental = 4 then (1 : ℚ) else 0)
    rw [hov]
  refine List.Forall₂.cons ⟨rfl, ?_⟩ ?_
  · intro hkK
    replace hkK : "Jenis rumah sewa(5)" = k := hkK
    have how : App9.ownerOf k = some App9.Field.rental := by
      rw [← hkK]
      decide
    have hov : P1.rental = P2.rental := hagree App9.Field.rental fun hf => hk (hf ▸ how)
    show (if P1.rental = 5 then (1 : ℚ) else 0) = (if P2.rental = 5 then (1 : ℚ) else 0)
    rw [hov]
  refine List.Forall₂.cons ⟨rfl, ?_⟩ ?_
  · intro hkK
    replace hkK : "Jenis kelengkapan perabot(1)" = k := hkK
    have how : App9.ownerOf k = some App9.Field.furnished := by
      rw [← hkK]
      decide
    have hov : P1.furnished = P2.furnished := hagree App9.Field.furnished fun hf => hk (hf ▸ how)
    show (if P1.furnished = 1 then (1 : ℚ) else 0) = (if P2.furnished = 1 then (1 : ℚ) else 0)
    rw [hov]
  refine List.Forall₂.cons ⟨rfl, ?_⟩ ?_
  · intro hkK
    replace hkK : "Bayaran deposit(1)" = k := hkK
    have how : App9.ownerOf k = some App9.Field.deposit := by
      rw [← hkK]
      decide
    have hov : P1.deposit = P2.deposit := hagree App9.Field.deposit fun hf => hk (hf ▸ how)
    show (if P1.deposit = 1 then (1 : ℚ) else 0) = (if P2.deposit = 1 then (1 : ℚ) else 0)
    rw [hov]
  refine List.Forall₂.cons ⟨rfl, ?_⟩ ?_
  · intro hkK
    replace hkK : "Bayaran deposit(2)" = k := hkK
    have how : App9.ownerOf k = some App9.Field.deposit := by
      rw [← hkK]
      decide
    have hov : P1.deposit = P2.deposit := hagree App9.Field.deposit fun hf => hk (hf ▸ how)
    show (if P1.deposit = 2 then (1 : ℚ) else 0) = (if P2.deposit = 2 then (1 : ℚ) else 0)
    rw [hov]
  refine List.Forall₂.cons ⟨rfl, ?_⟩ ?_
  · intro hkK
    replace hkK : "Bayaran deposit(3)" = k := hkK
    have how : App9.ownerOf k = some App9.Field.deposit := by
      rw [← hkK]
      decide
    have hov : P1.deposit = P2.deposit := hagree App9.Field.deposit fun hf => hk (hf ▸ how)
    show (if P1.deposit = 3 then (1 : ℚ) else 0) = (if P2.deposit = 3 then (1 : ℚ) else 0)
    rw [hov]
  refine List.Forall₂.cons ⟨rfl, ?_⟩ ?_
  · intro hkK
    replace hkK : "Bayaran deposit(4)" = k := hkK
    have how : App9.ownerOf k = some App9.Field.deposit := by
      rw [← hkK]
      decide
    have hov : P1.deposit = P2.deposit := hagree App9.Field.deposit fun hf => hk (hf ▸ how)
    show (if P1.deposit = 4 then (1 : ℚ) else 0) = (if P2.deposit = 4 then (1 : ℚ) else 0)
    rw [hov]
  refine List.Forall₂.cons ⟨rfl, ?_⟩ ?_
  · intro hkK
    replace hkK : "Bayaran deposit(5)" = k := hkK
    have how : App9.ownerOf k = some App9.Field.deposit := by
      rw [← hkK]
      decide
    have hov : P1.deposit = P2.deposit := hagree App9.Field.deposit fun hf => hk (hf ▸ how)
    show (if P1.deposit = 5 then (1 : ℚ) else 0) = (if P2.deposit = 5 then (1 : ℚ) else 0)
    rw [hov]
  refine List.Forall₂.cons ⟨rfl, ?_⟩ ?_
  · intro hkK
    replace hkK : "Bayaran deposit(6)" = k := hkK
    have how : App9.ownerOf k = some App9.Field.deposit := by
      rw [← hkK]
      decide
    have hov : P1.deposit = P2.deposit := hagree App9.Field.deposit fun hf => hk (hf ▸ how)
    show (if P1.deposit = 6 then (1 : ℚ) else 0) = (if P2.deposit = 6 then (1 : ℚ) else 0)
    rw [hov]
  refine List.Forall₂.cons ⟨rfl, ?_⟩ ?_
  · intro hkK
    replace hkK : "Berapa lama anda telah menyewa rumah(1)" = k := hkK
    have how : App9.ownerOf k = some App9.Field.years := by
      rw [← hkK]
      decide
    have hov : P1.years = P2.years := hagree App9.Field.years fun hf => hk (hf ▸ how)
    show (if P1.years = 1 then (1 : ℚ) else 0) = (if P2.years = 1 then (1 : ℚ) else 0)
    rw [hov]
  refine List.Forall₂.cons ⟨rfl, ?_⟩ ?_
  · intro hkK
    replace hkK : "Berapa lama anda telah menyewa rumah(2)" = k := hkK
    have how : App9.ownerOf k = some App9.Field.years := by
      rw [← hkK]
      decide
    have hov : P1.years = P2.years := hagree App9.Field.years fun hf => hk (hf ▸ how)
    show (if P1.years = 2 then (1 : ℚ) else 0) = (if P2.years = 2 then (1 : ℚ) else 0)
    rw [hov]
  refine List.Forall₂.cons ⟨rfl, ?_⟩ ?_
  · intro hkK
    replace hkK : "Berapa lama anda telah menyewa rumah(3)" = k := hkK
    have how : App9.ownerOf k = some App9.Field.years := by
      rw [← hkK]
      decide
    have hov : P1.years = P2.years := hagree App9.Field.years fun hf => hk (hf ▸ how)
    show (if P1.years = 3 then (1 : ℚ) else 0) = (if P2.years = 3 then (1 : ℚ) else 0)
    rw [hov]
  refine List.Forall₂.cons ⟨rfl, ?_⟩ ?_
  · intro hkK
    replace hkK : "Berapa lama anda telah menyewa rumah(4)" = k := hkK
    have how : App9.ownerOf k = some App9.Field.years := by
      rw [← hkK]
      decide
    have hov : P1.years = P2.years := hagree App9.Field.years fun hf => hk (hf ▸ how)
    show (if P1.years = 4 then (1 : ℚ) else 0) = (if P2.years = 4 then (1 : ℚ) else 0)
    rw [hov]
  refine List.Forall₂.cons ⟨rfl, ?_⟩ ?_
  · intro hkK
    replace hkK : "Adakah anda mengetahui terdapat skim mampu sewa di Malaysia? (contoh: SMART sewa)(1)" = k := hkK
    have how : App9.ownerOf k = some App9.Field.smart := by
      rw [← hkK]
      decide
    have hov : P1.smart = P2.smart := hagree App9.Field.smart fun hf => hk (hf ▸ how)
    show (if P1.smart = 1 then (1 : ℚ) else 0) = (if P2.smart = 1 then (1 : ℚ) else 0)
    rw [hov]
  exact List.Forall₂.nil

/-- Witness for C9: two concrete profiles identical except that ethnicity
moves from baseline 0 to option 1; the age feature `Umur` (owned by no
group) is unchanged. -/
theorem one_hot_encoding_independence_witness :
    (App9.proj App9.Field.ethnicity
        (⟨38, 0, 0, 0, 0, 0, 0, 0, 0, 0, 0, 0, 0, 0, 0⟩ : App9.Profile) = 0) ∧
    (App9.proj App9.Field.ethnicity
        (⟨38, 0, 0, 1, 0, 0, 0, 0, 0, 0, 0, 0, 0, 0, 0⟩ : App9.Profile) ≠ 0) ∧
    App9.ownerOf "Umur" ≠ some App9.Field.ethnicity ∧
    App9.one_hot_inputs (⟨38, 0, 0, 0, 0, 0, 0, 0, 0, 0, 0, 0, 0, 0, 0⟩ : App9.Profile) "Umur" =
      App9.one_hot_inputs (⟨38, 0, 0, 1, 0, 0, 0, 0, 0, 0, 0, 0, 0, 0, 0⟩ : App9.Profile) "Umur" :=
  ⟨rfl, by decide, by decide,
   one_hot_encoding_independence
     ⟨38, 0, 0, 0, 0, 0, 0, 0, 0, 0, 0, 0, 0, 0, 0⟩
     ⟨38, 0, 0, 1, 0, 0, 0, 0, 0, 0, 0, 0, 0, 0, 0⟩
     App9.Field.ethnicity rfl
     (fun g hg => by cases g <;> first | rfl | exact absurd rfl hg)
     rfl (by decide) "Umur" (by decide)⟩
